import Mathlib

/-!
Verification of the Buyee landed-cost calculation engine
(`buyee_landed_cost.py`, consolidation endpoint in `app.py`).

Modelling conventions, used consistently below:

* Python `float` values are embedded as `ℚ`.  Every concrete input appearing
  in a theorem below was checked to behave identically under IEEE-754 double
  arithmetic and exact rational arithmetic (all products and sums involved
  are exactly representable, including the tie `15000 * 0.0717 = 1075.5`),
  so the rational embedding is faithful at those points.
* Python `round` (round half to even) is embedded as `pyRound`.
* Python substring test `needle in hay` is embedded as `strContains`.
* Python `str.lower` is embedded as `pyLower`, which lowercases ASCII
  letters.  The keyword and platform tokens of the source are ASCII or caseless
  katakana, on which the two functions agree.
* HTML/regex signal harvesting (BeautifulSoup selections, `re.findall`) is
  embedded by abstract signal records: a page is represented by the ordered
  lists of already-parsed candidate values that the fixed pattern lists of
  the source would produce, and the selection loops of the source are
  translated literally.
* The fetched exchange rate is a parameter of the pipeline function (the
  source fetches it once per call and uses it uniformly).
-/

/-- Embedding of the Python builtin `round` to an integer: round half to
even. -/
def pyRound (q : ℚ) : ℤ :=
  let f := ⌊q⌋
  let r := q - (f : ℚ)
  if r < 1/2 then f
  else if 1/2 < r then f + 1
  else if f % 2 = 0 then f else f + 1

/-- Lowercasing of ASCII letters, embedding `str.lower` on the inputs used
by the source (ASCII keywords and caseless katakana). -/
def pyLower (s : String) : String := String.mk (s.data.map Char.toLower)

/-- Substring containment on character lists: `needle` occurs contiguously
inside the second list. -/
def containsChars (needle : List Char) : List Char → Bool
  | [] => needle.isEmpty
  | c :: t => needle.isPrefixOf (c :: t) || containsChars needle t

/-- Embedding of the Python substring test `needle in hay`. -/
def strContains (hay needle : String) : Bool :=
  containsChars needle.toList hay.toList

/-- Embedding of `any(word in text for word in ws)`. -/
def anyKeyword (text : String) (ws : List String) : Bool :=
  ws.any (fun w => strContains text w)

/-- Embedding of `BuyeeLandedCostCalculator.detect_clothing_category`
(buyee_landed_cost.py lines 98-138): case-insensitive keyword containment
over the concatenated name and description, eight keyword groups tried in
fixed order, first match wins, default "general". -/
def detect_clothing_category (item_name : String) (item_description : String := "") : String :=
  let text := pyLower (item_name ++ " " ++ item_description)
  if anyKeyword text ["boot", "sneaker", "shoe", "sandal", "loafer", "スニーカー", "ブーツ", "靴"] then
    "footwear"
  else if anyKeyword text ["jacket", "coat", "blazer", "parka", "bomber", "ジャケット", "コート"] then
    "outerwear"
  else if anyKeyword text ["pant", "jean", "trouser", "パンツ", "ジーンズ", "デニム"] then
    "pants"
  else if anyKeyword text ["t-shirt", "tshirt", "tee", "shirt", "top", "blouse", "tシャツ", "シャツ"] then
    "t_shirt"
  else if anyKeyword text ["hoodie", "sweatshirt", "sweater", "pullover", "フーディ", "スウェット"] then
    "hoodie"
  else if anyKeyword text ["dress", "skirt", "ドレス", "スカート"] then
    "dress"
  else if anyKeyword text ["bag", "wallet", "purse", "backpack", "バッグ", "財布"] then
    "accessories"
  else if anyKeyword text ["jewelry", "necklace", "ring", "bracelet", "watch", "アクセサリー", "時計"] then
    "jewelry"
  else
    "general"

/-- Embedding of `estimate_package_dimensions_from_category` (lines
140-157): fixed (length, width, height) table in cm; unknown keys fall back
to the "general" entry. -/
def estimate_package_dimensions_from_category (category : String) : ℚ × ℚ × ℚ :=
  if category = "footwear" then (35, 25, 15)
  else if category = "outerwear" then (45, 35, 10)
  else if category = "pants" then (40, 30, 5)
  else if category = "t_shirt" then (30, 25, 3)
  else if category = "hoodie" then (35, 30, 8)
  else if category = "dress" then (40, 30, 5)
  else if category = "accessories" then (25, 20, 10)
  else if category = "jewelry" then (15, 10, 5)
  else (35, 25, 10)

/-- Embedding of `estimate_weight_from_category` (lines 159-176): fixed
weight table in kg; unknown keys fall back to the "general" entry. -/
def estimate_weight_from_category (category : String) : ℚ :=
  if category = "footwear" then 12/10
  else if category = "outerwear" then 8/10
  else if category = "pants" then 4/10
  else if category = "t_shirt" then 2/10
  else if category = "hoodie" then 6/10
  else if category = "dress" then 5/10
  else if category = "accessories" then 3/10
  else if category = "jewelry" then 1/10
  else 4/10

/-- Embedding of `calculate_volumetric_weight` (lines 700-704): zero when
any dimension is nonpositive, otherwise length times width times height
divided by 5000. -/
def calculate_volumetric_weight (length width height : ℚ) : ℚ :=
  if length ≤ 0 ∨ width ≤ 0 ∨ height ≤ 0 then 0
  else length * width * height / 5000

/-- Embedding of the FedEx Air base-rate selection inlined in
`estimate_international_shipping` (lines 752-763): five weight bands up to
2.0 kg, then a per-kg surcharge on the excess. -/
def fedex_air_cost (chargeable_weight : ℚ) : ℚ :=
  if chargeable_weight ≤ 3/10 then 5400
  else if chargeable_weight ≤ 1/2 then 6500
  else if chargeable_weight ≤ 1 then 8278
  else if chargeable_weight ≤ 3/2 then 10000
  else if chargeable_weight ≤ 2 then 12600
  else 12600 + (chargeable_weight - 2) * 3000

/-- Embedding of the `ShippingCost` dataclass. -/
structure ShippingCost where
  method : String
  cost_jpy : ℚ
  cost_usd : ℚ
  delivery_days : ℤ
deriving Repr, DecidableEq

/-- Embedding of `estimate_international_shipping` (lines 737-812): the
chargeable weight is the maximum of actual and volumetric weight; the
FedEx Air base rate is selected from the weight-band table and the other
four carriers are fixed fractions of it.  The Python dict keyed by carrier
name is embedded as an association list in insertion order. -/
def estimate_international_shipping (weight_kg length width height : ℚ) :
    List (String × ShippingCost) :=
  let volumetric_weight := calculate_volumetric_weight length width height
  let chargeable_weight := max weight_kg volumetric_weight
  let fedex := fedex_air_cost chargeable_weight
  [("FedEx Air", ⟨"FedEx Air", fedex, 0, 3⟩),
   ("EMS", ⟨"EMS", fedex * (75/100), 0, 5⟩),
   ("FedEx Economy", ⟨"FedEx Economy", fedex * (85/100), 0, 7⟩),
   ("DHL", ⟨"DHL", fedex * (95/100), 0, 4⟩),
   ("Buyee Air Delivery", ⟨"Buyee Air Delivery", fedex * (90/100), 0, 4⟩)]

/-- Embedding of `calculate_buyee_service_fee` (lines 814-838): three
percentage brackets keyed on the item price (below 9000, from 9000 below
10000, from 10000 up), result rounded with Python `round`.  The `platform`
argument is accepted and ignored, as in the source. -/
def calculate_buyee_service_fee (item_price_jpy : ℚ) (platform : String := "general") : ℤ :=
  let total_fee : ℚ :=
    if item_price_jpy < 9000 then item_price_jpy * (473/10000)
    else if item_price_jpy < 10000 then item_price_jpy * (78/1000)
    else item_price_jpy * (717/10000)
  pyRound total_fee

/-- Embedding of the module constant `US_TARIFF_RATE_JAPAN = 0.15`. -/
def US_TARIFF_RATE_JAPAN : ℚ := 15/100

/-- Embedding of `calculate_us_customs` (lines 840-852): duty is the tariff
rate times the declared value, and the processing fee is 5.00 exactly when
the declared value is positive, else 0. -/
def calculate_us_customs (declared_value_usd : ℚ) : ℚ × ℚ :=
  (declared_value_usd * US_TARIFF_RATE_JAPAN,
   if 0 < declared_value_usd then 5 else 0)

/-- Embedding of the `PackageInfo` dataclass. -/
structure PackageInfo where
  item_price_jpy : ℚ
  declared_value_jpy : ℚ
  weight_kg : ℚ
  length_cm : ℚ
  width_cm : ℚ
  height_cm : ℚ
  domestic_shipping_jpy : ℚ := 0
  buyee_service_fee_jpy : ℚ := 0
  item_name : String := ""
  package_id : String := ""
deriving Repr, DecidableEq

/-- Signals harvested from a shipment (package) page by the fixed pattern
lists of `extract_package_info` (lines 590-698): for each pattern group the
ordered list of already-parsed first-match candidates.  A weight candidate
carries the flag `'g' in pattern`; note that both weight patterns of this
branch contain the letter g (one ends in `kg`), so for signals produced by
the source this flag is always true. -/
structure ShipmentPageSignals where
  prices : List ℚ
  weights : List (ℚ × Bool)
  dims : List (ℚ × ℚ × ℚ)
  item_name : String := ""
  package_id : String := ""
deriving Repr, DecidableEq

/-- Embedding of the shipment-link branch of `extract_package_info` (lines
599-694).  Item links are dispatched to `extract_item_info` instead (line
596); this function covers the package branch the shipment-link claims are
about.  Each pattern loop of the source takes the first successfully parsed
candidate and performs no range filtering; weight is divided by 1000 when
the matching pattern contained the letter g.  Fields with no candidate stay
zero, and there is no category fallback in this branch. -/
def extract_package_info (sig : ShipmentPageSignals) : PackageInfo :=
  let price := (sig.prices.head?).getD 0
  let weight := ((sig.weights.map (fun m => if m.2 then m.1 / 1000 else m.1)).head?).getD 0
  let dims := (sig.dims.head?).getD (0, 0, 0)
  { item_price_jpy := price
    declared_value_jpy := price
    weight_kg := weight
    length_cm := dims.1
    width_cm := dims.2.1
    height_cm := dims.2.2
    item_name := sig.item_name
    package_id := sig.package_id }

/-- Range filter applied by every price-extraction stage of
`extract_item_info`: `100 <= price <= 10000000`. -/
def inRange (p : ℚ) : Bool := decide (100 ≤ p) && decide (p ≤ 10000000)

/-- First candidate of a list that passes the plausibility range filter. -/
def firstInRange (l : List ℚ) : Option ℚ :=
  l.find? inRange

/-- Embedding of the Python builtin `max` over a nonempty list (0 for the
empty list, which the source never reaches). -/
def maxOfList : List ℚ → ℚ
  | [] => 0
  | x :: xs => xs.foldl max x

/-- Abstraction of one parsed JSON-LD script in `extract_item_info` (lines
244-267): either no usable offers object, a dict offers object whose price
field may be present, or a list of offers with optional price fields. -/
inductive Offers where
  | absent : Offers
  | single : Option ℚ → Offers
  | multiple : List (Option ℚ) → Offers
deriving Repr, DecidableEq

/-- Embedding of the body of the JSON-LD script loop (lines 245-267): a
dict offers object with an in-range price overwrites the accumulator; a
list of offers contributes its first in-range price, if any.  The loop does
not stop after a hit, so later scripts can overwrite earlier ones. -/
def update_from_offers (acc : ℚ) : Offers → ℚ
  | Offers.absent => acc
  | Offers.single none => acc
  | Offers.single (some p) => if inRange p then p else acc
  | Offers.multiple ps =>
      match (ps.filterMap (fun op => op.bind (fun p => if inRange p then some p else none))).head? with
      | some p => p
      | none => acc

/-- Embedding of stage 1 of the price fallback chain (JSON-LD structured
data, lines 244-267), starting from the zero-initialised price field. -/
def stage_jsonld (scripts : List Offers) : ℚ :=
  scripts.foldl update_from_offers 0

/-- Embedding of stage 2 (meta tag `product:price:amount`, lines 277-285):
a single parsed candidate accepted only in range. -/
def stage_meta (meta_price : Option ℚ) : ℚ :=
  match meta_price with
  | some p => if inRange p then p else 0
  | none => 0

/-- Embedding of stage 3 (`data-price` attributes, lines 288-298): first
parsed candidate in range. -/
def stage_data_attrs (attrs : List ℚ) : ℚ :=
  (firstInRange attrs).getD 0

/-- Embedding of the generic-selector sweep (lines 395-432): collect every
in-range candidate across the selector list, then take the largest. -/
def genericMax (gen : List ℚ) : ℚ :=
  let found := gen.filter inRange
  if found.isEmpty then 0 else maxOfList found

/-- Embedding of stage 4 (marketplace CSS selectors, lines 301-432).  The
Rakuma branch only scans its own selectors taking the first in-range hit;
the other branch first tries the Yahoo or Mercari selector lists (first
in-range hit) and then, if still zero, the generic selector sweep. -/
def stage_selectors (is_rakuma is_yahoo is_mercari : Bool)
    (platform_selector_prices generic_selector_prices : List ℚ) : ℚ :=
  if is_rakuma then
    (firstInRange platform_selector_prices).getD 0
  else
    let p :=
      if is_yahoo then (firstInRange platform_selector_prices).getD 0
      else if is_mercari then (firstInRange platform_selector_prices).getD 0
      else 0
    if p = 0 then genericMax generic_selector_prices else p

/-- Embedding of the per-marketplace minimum-price filter of stage 5 (lines
468-496): keep candidates at or above the threshold and take the largest;
if the filter removes everything, take the largest unfiltered candidate. -/
def pickMax (threshold : ℚ) (all : List ℚ) : ℚ :=
  let fp := all.filter (fun p => decide (threshold ≤ p))
  if fp.isEmpty then maxOfList all else maxOfList fp

/-- Embedding of stage 5 (free-text currency patterns, lines 435-498): all
in-range candidates are deduplicated (the sort of the source does not
affect the maxima taken afterwards), then the platform-specific filter
chain of lines 468-496 picks the final value; an empty candidate set leaves
the price at zero. -/
def stage_text (is_rakuma is_yahoo is_mercari : Bool) (text_prices : List ℚ) : ℚ :=
  let all := (text_prices.filter inRange).dedup
  if all.isEmpty then 0
  else if is_rakuma && decide (1 < all.length) then pickMax 2000 all
  else if is_yahoo then pickMax 5000 all
  else if is_mercari then pickMax 1000 all
  else pickMax 1000 all

/-- Signals harvested from an item page by `extract_item_info`: parsed
candidates for each price-extraction stage, plus weight and dimension
pattern matches and the extracted item name.  A weight candidate carries
the flag `'g' in pattern`; every pattern of the weight list of this branch
contains the letter g (three end in kg), so for signals produced by the
source this flag is always true. -/
structure ItemPageSignals where
  jsonld_scripts : List Offers
  meta_price : Option ℚ := none
  data_price_attrs : List ℚ := []
  platform_selector_prices : List ℚ := []
  generic_selector_prices : List ℚ := []
  text_prices : List ℚ := []
  weight_matches : List (ℚ × Bool) := []
  dim_matches : List (ℚ × ℚ × ℚ) := []
  item_name : String := ""
deriving Repr, DecidableEq

/-- Embedding of the price-extraction fallback chain of `extract_item_info`
(lines 243-498): each later stage runs only when the price is still zero.
The platform flags are computed from the link exactly as in lines 272-274. -/
def extract_item_price (buyee_link : String) (sig : ItemPageSignals) : ℚ :=
  let lower := pyLower buyee_link
  let is_rakuma := strContains lower "rakuma"
  let is_yahoo := strContains lower "yahoo" || strContains lower "auction"
  let is_mercari := strContains lower "mercari"
  let p1 := stage_jsonld sig.jsonld_scripts
  if p1 ≠ 0 then p1 else
  let p2 := stage_meta sig.meta_price
  if p2 ≠ 0 then p2 else
  let p3 := stage_data_attrs sig.data_price_attrs
  if p3 ≠ 0 then p3 else
  let p4 := stage_selectors is_rakuma is_yahoo is_mercari
              sig.platform_selector_prices sig.generic_selector_prices
  if p4 ≠ 0 then p4 else
  stage_text is_rakuma is_yahoo is_mercari sig.text_prices

/-- Embedding of `extract_item_info` (lines 178-588) after the fetch: price
via the fallback chain (each assignment sets the declared value alongside
the item price), weight as the first pattern match that lands in
[0.01, 50] after the grams conversion of line 522, dimensions as the first
triple inside [0.1, 200], category fallback for still-zero weight or
length (lines 547-561), and the 3-tier domestic shipping estimate (lines
563-582). -/
def extract_item_info (buyee_link : String) (sig : ItemPageSignals)
    (item_id : String := "") : PackageInfo :=
  let price := extract_item_price buyee_link sig
  let weight :=
    ((sig.weight_matches.map (fun m => if m.2 && decide (10 < m.1) then m.1 / 1000 else m.1)).find?
      (fun w => decide (1/100 ≤ w) && decide (w ≤ 50))).getD 0
  let dims :=
    (sig.dim_matches.find?
      (fun t => decide (1/10 ≤ t.1) && decide (t.1 ≤ 200) &&
                (decide (1/10 ≤ t.2.1) && decide (t.2.1 ≤ 200)) &&
                (decide (1/10 ≤ t.2.2) && decide (t.2.2 ≤ 200)))).getD (0, 0, 0)
  let category := detect_clothing_category sig.item_name ""
  let weight2 := if weight = 0 then estimate_weight_from_category category else weight
  let dims2 := if dims.1 = 0 then estimate_package_dimensions_from_category category else dims
  let domestic : ℚ :=
    if 0 < weight2 then
      (if weight2 < 3/10 then 800 else if weight2 < 1/2 then 1000 else 1200)
    else if 0 < price then
      (if estimate_weight_from_category category < 3/10 then 800
       else if estimate_weight_from_category category < 1/2 then 1000 else 1200)
    else 0
  { item_price_jpy := price
    declared_value_jpy := price
    weight_kg := weight2
    length_cm := dims2.1
    width_cm := dims2.2.1
    height_cm := dims2.2.2
    domestic_shipping_jpy := domestic
    item_name := sig.item_name
    package_id := item_id }

/-- Embedding of the `LandedCost` dataclass. -/
structure LandedCost where
  item_price_jpy : ℚ
  item_price_usd : ℚ
  domestic_shipping_jpy : ℚ
  domestic_shipping_usd : ℚ
  buyee_service_fee_jpy : ℚ
  buyee_service_fee_usd : ℚ
  international_shipping_jpy : ℚ
  international_shipping_usd : ℚ
  us_customs_duty_usd : ℚ
  us_customs_tax_usd : ℚ
  total_jpy : ℚ
  total_usd : ℚ
  exchange_rate : ℚ
  shipping_method : String
deriving Repr, DecidableEq

/-- Embedding of the Python truthiness test `if manual_x:` used by the
override block (lines 889-899): `None` and `0.0` leave the old value. -/
def overrideQ (m : Option ℚ) (old : ℚ) : ℚ :=
  match m with
  | some v => if v = 0 then old else v
  | none => old

/-- Embedding of `calculate_landed_cost` (lines 854-962) on the successful
extraction path, as a pure function of the extracted `PackageInfo`, the
fetched exchange rate, the requested shipping method and the manual
overrides.  The platform string is derived from the link as in lines
903-910 (the fee calculation ignores it); an unknown shipping method is
replaced by the EMS default of line 925.  The `getD` fallback after the
lookup is unreachable because EMS is always among the quoted carriers. -/
def calculate_landed_cost (buyee_link : String) (package_info : PackageInfo)
    (exchange_rate : ℚ) (shipping_method : String := "EMS")
    (manual_weight_kg : Option ℚ := none) (manual_length_cm : Option ℚ := none)
    (manual_width_cm : Option ℚ := none) (manual_height_cm : Option ℚ := none)
    (manual_price_jpy : Option ℚ := none) : LandedCost :=
  let pi : PackageInfo :=
    { package_info with
      weight_kg := overrideQ manual_weight_kg package_info.weight_kg
      length_cm := overrideQ manual_length_cm package_info.length_cm
      width_cm := overrideQ manual_width_cm package_info.width_cm
      height_cm := overrideQ manual_height_cm package_info.height_cm
      item_price_jpy := overrideQ manual_price_jpy package_info.item_price_jpy
      declared_value_jpy := overrideQ manual_price_jpy package_info.declared_value_jpy }
  let lower := pyLower buyee_link
  let platform :=
    if strContains lower "rakuma" then "rakuma"
    else if strContains lower "mercari" then "mercari"
    else if strContains lower "yahoo" || strContains lower "auction" then "yahoo"
    else "general"
  let fee : ℚ :=
    if pi.buyee_service_fee_jpy = 0 then
      ((calculate_buyee_service_fee pi.item_price_jpy platform : ℤ) : ℚ)
    else pi.buyee_service_fee_jpy
  let shipping_options :=
    estimate_international_shipping pi.weight_kg pi.length_cm pi.width_cm pi.height_cm
  let method :=
    if (shipping_options.lookup shipping_method).isSome then shipping_method else "EMS"
  let selected := (shipping_options.lookup method).getD ⟨"EMS", 0, 0, 5⟩
  let item_price_usd := pi.item_price_jpy * exchange_rate
  let domestic_shipping_usd := pi.domestic_shipping_jpy * exchange_rate
  let buyee_service_fee_usd := fee * exchange_rate
  let international_shipping_usd := selected.cost_jpy * exchange_rate
  let declared_value_usd := pi.declared_value_jpy * exchange_rate
  let customs := calculate_us_customs declared_value_usd
  let total_jpy := pi.item_price_jpy + pi.domestic_shipping_jpy + fee + selected.cost_jpy
  let total_usd := item_price_usd + domestic_shipping_usd + buyee_service_fee_usd +
                   international_shipping_usd + customs.1 + customs.2
  { item_price_jpy := pi.item_price_jpy
    item_price_usd := item_price_usd
    domestic_shipping_jpy := pi.domestic_shipping_jpy
    domestic_shipping_usd := domestic_shipping_usd
    buyee_service_fee_jpy := fee
    buyee_service_fee_usd := buyee_service_fee_usd
    international_shipping_jpy := selected.cost_jpy
    international_shipping_usd := international_shipping_usd
    us_customs_duty_usd := customs.1
    us_customs_tax_usd := customs.2
    total_jpy := total_jpy
    total_usd := total_usd
    exchange_rate := exchange_rate
    shipping_method := method }

/-- Embedding of `calculate_consolidated_shipping` (lines 706-735): sum of
the positive weights, maximum positive length and width, sum of the
positive heights; when any aggregate dimension is still zero, a dimension
triple chosen by total weight is substituted.  The unused
`shipping_method` parameter of the source is omitted. -/
def calculate_consolidated_shipping (package_infos : List PackageInfo) : ℚ × ℚ × ℚ × ℚ :=
  if package_infos.isEmpty then (0, 0, 0, 0)
  else
    let total_weight :=
      ((package_infos.filter (fun p => decide (0 < p.weight_kg))).map PackageInfo.weight_kg).sum
    let max_length :=
      ((package_infos.map PackageInfo.length_cm).filter (fun x => decide (0 < x))).foldl max 0
    let max_width :=
      ((package_infos.map PackageInfo.width_cm).filter (fun x => decide (0 < x))).foldl max 0
    let total_height :=
      ((package_infos.filter (fun p => decide (0 < p.height_cm))).map PackageInfo.height_cm).sum
    if max_length = 0 ∨ max_width = 0 ∨ total_height = 0 then
      if total_weight < 1/2 then (total_weight, 30, 20, 15)
      else if total_weight < 1 then (total_weight, 40, 30, 20)
      else if total_weight < 2 then (total_weight, 50, 40, 25)
      else (total_weight, 60, 50, 30)
    else
      (total_weight, max_length, max_width, total_height)

/-- Embedding of the consolidation fee of `calculate_batch` (app.py line
327): 500 JPY per package after the first. -/
def consolidation_fee_jpy (package_info_list : List PackageInfo) : ℚ :=
  500 * ((package_info_list.length : ℤ) - 1 : ℤ)

/-- Modelled from the spec: the international shipping cost the claim about
shipment-link extraction expects, with every zero physical field first
resolved through the Category Classifier fallback for category "general"
(spec sections 4.2 and 8).  This definition follows the words of the spec
and exists only to be compared against the pipeline above. -/
def spec_general_fallback_shipping_jpy (method : String) : ℚ :=
  let w := estimate_weight_from_category "general"
  let d := estimate_package_dimensions_from_category "general"
  (((estimate_international_shipping w d.1 d.2.1 d.2.2).lookup method).getD ⟨"EMS", 0, 0, 5⟩).cost_jpy

/-! Helper lemmas shared by several claim theorems. -/

/-- Folding `max` over a list starting from `a` yields `a` or a list
element. -/
lemma foldl_max_mem (xs : List ℚ) (a : ℚ) : xs.foldl max a = a ∨ xs.foldl max a ∈ xs := by
  induction xs generalizing a with
  | nil => exact Or.inl rfl
  | cons x xs ih =>
    rcases ih (max a x) with h | h
    · rcases max_choice a x with hm | hm
      · exact Or.inl (by rw [List.foldl_cons, h, hm])
      · exact Or.inr (by rw [List.foldl_cons, h, hm]; exact List.mem_cons_self x xs)
    · exact Or.inr (List.mem_cons_of_mem x h)

/-- The Python `max` of a nonempty list is one of its elements. -/
lemma maxOfList_mem (l : List ℚ) (h : l ≠ []) : maxOfList l ∈ l := by
  cases l with
  | nil => exact absurd rfl h
  | cons x xs =>
    rcases foldl_max_mem xs x with h | h
    · rw [maxOfList, h]; exact List.mem_cons_self x xs
    · exact List.mem_cons_of_mem x h

/-- One JSON-LD script step keeps the accumulator zero or in range. -/
lemma update_from_offers_pres (acc : ℚ) (s : Offers)
    (h : acc = 0 ∨ inRange acc = true) :
    update_from_offers acc s = 0 ∨ inRange (update_from_offers acc s) = true := by
  cases s with
  | absent => exact h
  | single op =>
    cases op with
    | none => exact h
    | some p =>
      by_cases hp : inRange p = true
      · right; simpa [update_from_offers, hp] using hp
      · simpa [update_from_offers, hp] using h
  | multiple ps =>
    rcases hm : (ps.filterMap (fun op => op.bind
        (fun p => if inRange p then some p else none))).head? with _ | ⟨p⟩
    · simpa [update_from_offers, hm] using h
    · right
      have hmem := List.mem_of_mem_head? (by rw [hm]; exact rfl)
      rcases List.mem_filterMap.mp hmem with ⟨op, _, hop⟩
      cases op with
      | none => simp at hop
      | some q =>
        by_cases hq : inRange q = true
        · simp only [Option.bind, if_pos hq, Option.some.injEq] at hop
          simpa [update_from_offers, hm, ← hop] using hq
        · simp [Option.bind, if_neg hq] at hop

/-- Stage 1 produces zero or an in-range price. -/
lemma stage_jsonld_zero_or_inRange (scripts : List Offers) :
    stage_jsonld scripts = 0 ∨ inRange (stage_jsonld scripts) = true := by
  have : ∀ (l : List Offers) (acc : ℚ), (acc = 0 ∨ inRange acc = true) →
      (l.foldl update_from_offers acc = 0 ∨ inRange (l.foldl update_from_offers acc) = true) := by
    intro l
    induction l with
    | nil => exact fun acc h => h
    | cons s t ih => exact fun acc h => ih _ (update_from_offers_pres acc s h)
  exact this scripts 0 (Or.inl rfl)

/-- Stage 2 produces zero or an in-range price. -/
lemma stage_meta_zero_or_inRange (mp : Option ℚ) :
    stage_meta mp = 0 ∨ inRange (stage_meta mp) = true := by
  cases mp with
  | none => exact Or.inl rfl
  | some p =>
    by_cases hp : inRange p = true
    · right; simpa [stage_meta, hp] using hp
    · left; simp [stage_meta, hp]

/-- Stage 3 produces zero or an in-range price. -/
lemma stage_data_attrs_zero_or_inRange (attrs : List ℚ) :
    stage_data_attrs attrs = 0 ∨ inRange (stage_data_attrs attrs) = true := by
  rcases hf : firstInRange attrs with _ | ⟨p⟩
  · left; simp [stage_data_attrs, hf]
  · right
    have := List.find?_some hf
    simpa [stage_data_attrs, hf] using this

/-- The generic selector sweep produces zero or an in-range price. -/
lemma genericMax_zero_or_inRange (gen : List ℚ) :
    genericMax gen = 0 ∨ inRange (genericMax gen) = true := by
  by_cases he : (gen.filter inRange).isEmpty = true
  · left; simp [genericMax, he]
  · right
    have hne : gen.filter inRange ≠ [] := by
      intro hnil; rw [hnil] at he; exact he rfl
    have hmem := maxOfList_mem _ hne
    have := List.of_mem_filter hmem
    simpa [genericMax, he] using this

/-- Stage 4 produces zero or an in-range price. -/
lemma stage_selectors_zero_or_inRange (ir iy im : Bool) (sel gen : List ℚ) :
    stage_selectors ir iy im sel gen = 0 ∨
      inRange (stage_selectors ir iy im sel gen) = true := by
  have hfirst : ∀ l : List ℚ, (firstInRange l).getD 0 = 0 ∨ inRange ((firstInRange l).getD 0) = true := by
    intro l
    rcases hf : firstInRange l with _ | ⟨p⟩
    · left; simp
    · right; have := List.find?_some hf; simpa using this
  cases ir with
  | true => simpa [stage_selectors] using hfirst sel
  | false =>
    simp only [stage_selectors, Bool.false_eq_true, if_false]
    set p := if iy = true then (firstInRange sel).getD 0
             else if im = true then (firstInRange sel).getD 0 else 0 with hp
    by_cases hz : p = 0
    · simpa [hz] using genericMax_zero_or_inRange gen
    · have hpor : p = 0 ∨ inRange p = true := by
        rw [hp]
        split_ifs
        · exact hfirst sel
        · exact hfirst sel
        · exact Or.inl rfl
      simpa [hz] using hpor.resolve_left hz

/-- The stage 5 pick stays inside the candidate list. -/
lemma pickMax_mem (threshold : ℚ) (all : List ℚ) (h : all ≠ []) :
    pickMax threshold all ∈ all := by
  by_cases he : (all.filter (fun p => decide (threshold ≤ p))).isEmpty = true
  · simpa [pickMax, he] using maxOfList_mem all h
  · have hne : all.filter (fun p => decide (threshold ≤ p)) ≠ [] := by
      intro hnil; rw [hnil] at he; exact he rfl
    have hmem := maxOfList_mem _ hne
    have := List.mem_of_mem_filter hmem
    simpa [pickMax, he] using this

/-- Stage 5 produces zero or an in-range price. -/
lemma stage_text_zero_or_inRange (ir iy im : Bool) (tp : List ℚ) :
    stage_text ir iy im tp = 0 ∨ inRange (stage_text ir iy im tp) = true := by
  set all := (tp.filter inRange).dedup with hall
  by_cases he : all.isEmpty = true
  · left; simp [stage_text, ← hall, he]
  · have hne : all ≠ [] := by
      intro hnil; rw [hnil] at he; exact he rfl
    have hin : ∀ q ∈ all, inRange q = true := by
      intro q hq
      rw [hall] at hq
      exact List.of_mem_filter (List.mem_dedup.mp hq)
    right
    simp only [stage_text, ← hall, he, Bool.false_eq_true, if_false]
    split_ifs
    · exact hin _ (pickMax_mem _ _ hne)
    · exact hin _ (pickMax_mem _ _ hne)
    · exact hin _ (pickMax_mem _ _ hne)
    · exact hin _ (pickMax_mem _ _ hne)

/-- C7: the price-extraction fallback chain runs its stages in strict
order, every stage accepts only prices in [100, 10000000] (so the final
price is zero or in range), and whenever the JSON-LD structured-data stage
yields a price, that price is the extracted one — any conflicting free-text
candidate never wins. -/
theorem C7_price_chain_structured_wins :
    (∀ (link : String) (sig : ItemPageSignals),
       stage_jsonld sig.jsonld_scripts ≠ 0 →
       extract_item_price link sig = stage_jsonld sig.jsonld_scripts) ∧
    (∀ (link : String) (sig : ItemPageSignals),
       extract_item_price link sig = 0 ∨ inRange (extract_item_price link sig) = true) ∧
    (∀ (link : String) (sig : ItemPageSignals) (q : ℚ),
       stage_jsonld sig.jsonld_scripts ≠ 0 → q ∈ sig.text_prices →
       q ≠ stage_jsonld sig.jsonld_scripts → extract_item_price link sig ≠ q) := by
  have h1 : ∀ (link : String) (sig : ItemPageSignals),
      stage_jsonld sig.jsonld_scripts ≠ 0 →
      extract_item_price link sig = stage_jsonld sig.jsonld_scripts := by
    intro link sig h
    simp [extract_item_price, h]
  refine ⟨h1, ?_, ?_⟩
  · intro link sig
    simp only [extract_item_price]
    split_ifs with ha hb hc hd
    · exact Or.inr ((stage_jsonld_zero_or_inRange _).resolve_left ha)
    · exact Or.inr ((stage_meta_zero_or_inRange _).resolve_left hb)
    · exact Or.inr ((stage_data_attrs_zero_or_inRange _).resolve_left hc)
    · exact Or.inr ((stage_selectors_zero_or_inRange _ _ _ _ _).resolve_left hd)
    · exact stage_text_zero_or_inRange _ _ _ _
  · intro link sig q hs _ hq
    rw [h1 link sig hs]
    exact fun he => hq he.symm

/-- C7 witness: on a page carrying a structured-data price of 5000 and a
conflicting free-text candidate 3000, the chain extracts 5000. -/
theorem C7_witness :
    stage_jsonld [Offers.single (some 5000)] ≠ 0 ∧
    extract_item_price "https://buyee.jp/item/detail/1"
      ⟨[Offers.single (some 5000)], none, [], [], [], [3000], [], [], ""⟩ =
      stage_jsonld [Offers.single (some 5000)] := by
  have hne : stage_jsonld [Offers.single (some 5000)] ≠ 0 := by
    norm_num [stage_jsonld, update_from_offers, inRange]
  exact ⟨hne, C7_price_chain_structured_wins.1 "https://buyee.jp/item/detail/1"
    ⟨[Offers.single (some 5000)], none, [], [], [], [3000], [], [], ""⟩ hne⟩

/-- C1 counterexample: the claimed reference value for item price 9500 is
725, but the code charges the 7.8 percent mid bracket and returns 741; the
claimed value 1075 for price 15000 is likewise off by the round-half-even
tie, which gives 1076. -/
theorem C1_counterexample :
    calculate_buyee_service_fee 9500 = 741 ∧ (741 : ℤ) ≠ 725 ∧
    calculate_buyee_service_fee 15000 = 1076 ∧ (1076 : ℤ) ≠ 1075 := by
  refine ⟨?_, by norm_num, ?_, by norm_num⟩
  · norm_num [calculate_buyee_service_fee, pyRound]
  · norm_num [calculate_buyee_service_fee, pyRound]

/-- C1 amended: the service fee applies exactly three fixed percentage
brackets (4.73 percent below 9000, 7.8 percent from 9000 below 10000, 7.17
percent from 10000 up, so the integer bracket boundaries are
8999/9000/9999/10000), rounds with Python round (ties to even), and the
reference values are 425 for price 8980, 741 for price 9500 and 1076 for
price 15000. -/
theorem C1_service_fee_brackets :
    (∀ p : ℚ, p < 9000 → calculate_buyee_service_fee p = pyRound (p * (473/10000))) ∧
    (∀ p : ℚ, 9000 ≤ p → p < 10000 → calculate_buyee_service_fee p = pyRound (p * (78/1000))) ∧
    (∀ p : ℚ, 10000 ≤ p → calculate_buyee_service_fee p = pyRound (p * (717/10000))) ∧
    calculate_buyee_service_fee 8980 = 425 ∧
    calculate_buyee_service_fee 9500 = 741 ∧
    calculate_buyee_service_fee 15000 = 1076 := by
  refine ⟨?_, ?_, ?_, ?_, ?_, ?_⟩
  · intro p h
    simp only [calculate_buyee_service_fee]
    rw [if_pos h]
  · intro p h1 h2
    simp only [calculate_buyee_service_fee]
    rw [if_neg (not_lt.mpr h1), if_pos h2]
  · intro p h
    simp only [calculate_buyee_service_fee]
    rw [if_neg (not_lt.mpr (by linarith)), if_neg (not_lt.mpr h)]
  · norm_num [calculate_buyee_service_fee, pyRound]
  · norm_num [calculate_buyee_service_fee, pyRound]
  · norm_num [calculate_buyee_service_fee, pyRound]

/-- C1 witness: the low bracket applied at the concrete price 8980. -/
theorem C1_witness :
    (8980 : ℚ) < 9000 ∧ calculate_buyee_service_fee 8980 = pyRound (8980 * (473/10000)) :=
  ⟨by norm_num, C1_service_fee_brackets.1 8980 (by norm_num)⟩

/-- C3: for nonnegative dimensions the volumetric weight is length times
width times height over 5000, the FedEx Air quote is priced at the
chargeable weight max(actual, volumetric), and for dimensions 30 by 20 by
15 with actual weight 1.0 the volumetric and chargeable weights are 1.8
and the selected base rate is the 12600 rate of the band reaching 2.0 kg. -/
theorem C3_volumetric_chargeable :
    (∀ L W H : ℚ, 0 ≤ L → 0 ≤ W → 0 ≤ H →
       calculate_volumetric_weight L W H = L * W * H / 5000) ∧
    (∀ w L W H : ℚ,
       (estimate_international_shipping w L W H).lookup "FedEx Air" =
         some ⟨"FedEx Air", fedex_air_cost (max w (calculate_volumetric_weight L W H)), 0, 3⟩) ∧
    calculate_volumetric_weight 30 20 15 = 9/5 ∧
    max (1 : ℚ) (calculate_volumetric_weight 30 20 15) = 9/5 ∧
    (3/2 < (9/5 : ℚ) ∧ (9/5 : ℚ) ≤ 2 ∧ fedex_air_cost (9/5) = 12600) := by
  refine ⟨?_, ?_, ?_, ?_, by norm_num, by norm_num, ?_⟩
  · intro L W H hL hW hH
    simp only [calculate_volumetric_weight]
    split_ifs with h
    · rcases h with h | h | h
      · rw [le_antisymm h hL]; ring
      · rw [le_antisymm h hW]; ring
      · rw [le_antisymm h hH]; ring
    · rfl
  · intro w L W H
    simp [estimate_international_shipping, List.lookup]
  · norm_num [calculate_volumetric_weight]
  · norm_num [calculate_volumetric_weight]
  · norm_num [fedex_air_cost]

/-- C3 witness: the nonnegativity hypotheses discharged at the concrete
dimensions 30 by 20 by 15. -/
theorem C3_witness :
    (0 : ℚ) ≤ 30 ∧ (0 : ℚ) ≤ 20 ∧ (0 : ℚ) ≤ 15 ∧
    calculate_volumetric_weight 30 20 15 = 30 * 20 * 15 / 5000 :=
  ⟨by norm_num, by norm_num, by norm_num,
   C3_volumetric_chargeable.1 30 20 15 (by norm_num) (by norm_num) (by norm_num)⟩

/-- C4: the customs calculator returns duty exactly 0.15 times the
declared value and processing fee exactly 5.00 whenever the declared value
is positive, and (0, 0) at declared value 0; both extractors keep the
declared value equal to the extracted item price, and the duty computed by
the pipeline is the (possibly overridden) declared value times the
exchange rate times 0.15 — no shipping or fee line enters the customs
base. -/
theorem C4_customs :
    (∀ V : ℚ, 0 < V → calculate_us_customs V = (15/100 * V, 5)) ∧
    calculate_us_customs 0 = (0, 0) ∧
    (∀ sig : ShipmentPageSignals,
       (extract_package_info sig).declared_value_jpy = (extract_package_info sig).item_price_jpy) ∧
    (∀ (link : String) (sig : ItemPageSignals) (id : String),
       (extract_item_info link sig id).declared_value_jpy = (extract_item_info link sig id).item_price_jpy) ∧
    (∀ (link : String) (p : PackageInfo) (r : ℚ) (m : String)
       (mw ml mwd mh mp : Option ℚ),
       (calculate_landed_cost link p r m mw ml mwd mh mp).us_customs_duty_usd =
         overrideQ mp p.declared_value_jpy * r * (15/100)) := by
  refine ⟨?_, ?_, ?_, ?_, ?_⟩
  · intro V hV
    simp only [calculate_us_customs, US_TARIFF_RATE_JAPAN, if_pos hV]
    exact Prod.ext (by ring) rfl
  · norm_num [calculate_us_customs, US_TARIFF_RATE_JAPAN]
  · intro sig; rfl
  · intro link sig id; rfl
  · intro link p r m mw ml mwd mh mp; rfl

/-- C4 witness: the positive-declared-value clause at the concrete value
100. -/
theorem C4_witness :
    (0 : ℚ) < 100 ∧ calculate_us_customs 100 = (15/100 * 100, 5) :=
  ⟨by norm_num, C4_customs.1 100 (by norm_num)⟩

/-- C5: the category classifier is total over the nine fixed categories,
and any text whose lowercased form contains both "boot" and "jacket"
classifies as footwear (the footwear keyword group is tested first), never
as outerwear. -/
theorem C5_classifier_total_ordered :
    (∀ n d : String, detect_clothing_category n d ∈
       ["footwear", "outerwear", "pants", "t_shirt", "hoodie",
        "dress", "accessories", "jewelry", "general"]) ∧
    (∀ n d : String,
       strContains (pyLower (n ++ " " ++ d)) "boot" = true →
       strContains (pyLower (n ++ " " ++ d)) "jacket" = true →
       detect_clothing_category n d = "footwear" ∧
       detect_clothing_category n d ≠ "outerwear") := by
  constructor
  · intro n d
    simp only [detect_clothing_category]
    split_ifs <;> simp
  · intro n d hb _
    have hany : anyKeyword (pyLower (n ++ " " ++ d))
        ["boot", "sneaker", "shoe", "sandal", "loafer", "スニーカー", "ブーツ", "靴"] = true := by
      simp [anyKeyword, hb]
    have hf : detect_clothing_category n d = "footwear" := by
      simp only [detect_clothing_category]
      rw [if_pos hany]
    exact ⟨hf, by rw [hf]; decide⟩

/-- C5 witness: a concrete name containing both keywords. -/
theorem C5_witness :
    strContains (pyLower ("Chelsea Boot with Denim Jacket" ++ " " ++ "")) "boot" = true ∧
    strContains (pyLower ("Chelsea Boot with Denim Jacket" ++ " " ++ "")) "jacket" = true ∧
    detect_clothing_category "Chelsea Boot with Denim Jacket" "" = "footwear" ∧
    detect_clothing_category "Chelsea Boot with Denim Jacket" "" ≠ "outerwear" := by
  have h := C5_classifier_total_ordered.2 "Chelsea Boot with Denim Jacket" ""
    (by decide) (by decide)
  exact ⟨by decide, by decide, h.1, h.2⟩

/-- Evaluating the pipeline on a shipment page with no price, weight or
dimension signals: every extracted field stays zero, so the quote is taken
at chargeable weight 0 (the smallest FedEx band, 5400 JPY, hence EMS
4050 JPY), and customs are zero. -/
lemma landed_cost_empty_shipment_eval (link : String) (r : ℚ) (nm pid : String) :
    calculate_landed_cost link (extract_package_info ⟨[], [], [], nm, pid⟩) r "EMS" =
      ⟨0, 0, 0, 0, 0, 0, 4050, 4050 * r, 0, 0, 4050, 4050 * r, r, "EMS"⟩ := by
  have hlk : (estimate_international_shipping 0 0 0 0).lookup "EMS" =
      some ⟨"EMS", 4050, 0, 5⟩ := by
    norm_num [estimate_international_shipping, calculate_volumetric_weight,
      fedex_air_cost, List.lookup]
    rfl
  norm_num [calculate_landed_cost, extract_package_info, overrideQ,
    calculate_buyee_service_fee, pyRound, hlk,
    calculate_us_customs, US_TARIFF_RATE_JAPAN]

/-- C2 counterexample: on a shipment page yielding no price, weight or
dimensions, the pipeline quotes international shipping from the zero
values (EMS 4050 JPY, the smallest weight band), not from the
general-category fallback values demanded by the claim (EMS 9450 JPY): the
shipment-link branch of `extract_package_info` has no category fallback. -/
theorem C2_counterexample :
    (calculate_landed_cost "https://buyee.jp/package/12345"
        (extract_package_info ⟨[], [], [], "", "12345"⟩) (67/10000) "EMS").international_shipping_jpy
      = 4050 ∧
    spec_general_fallback_shipping_jpy "EMS" = 9450 ∧
    (4050 : ℚ) ≠ 9450 := by
  refine ⟨?_, ?_, by norm_num⟩
  · rw [landed_cost_empty_shipment_eval]
  · have h1 : calculate_volumetric_weight 35 25 10 = 7/4 := by
      norm_num [calculate_volumetric_weight]
    have h2 : max (4/10 : ℚ) (7/4) = 7/4 := by
      rw [max_eq_right]; norm_num
    have h3 : fedex_air_cost (7/4) = 12600 := by
      norm_num [fedex_air_cost]
    have h4 : estimate_weight_from_category "general" = 4/10 := by
      simp +decide [estimate_weight_from_category]
    have h5 : estimate_package_dimensions_from_category "general" = (35, 25, 10) := by
      simp +decide [estimate_package_dimensions_from_category]
    simp only [spec_general_fallback_shipping_jpy, h4, h5, estimate_international_shipping,
      h1, h2, h3, List.lookup, String.reduceBEq]
    norm_num

/-- C2 amended: a shipment-link extraction yielding no price, no weight
and no dimensions still produces a fully populated `LandedCost` without
raising, but its zero physical fields are not resolved by the category
fallback (that fallback exists only in the item-link branch): the shipping
quote is computed directly from the zero values, so the smallest weight
band applies and every price-derived line is zero. -/
theorem C2_shipment_no_signals (link : String) (r : ℚ) (nm pid : String) :
    calculate_landed_cost link (extract_package_info ⟨[], [], [], nm, pid⟩) r "EMS" =
      ⟨0, 0, 0, 0, 0, 0, 4050, 4050 * r, 0, 0, 4050, 4050 * r, r, "EMS"⟩ :=
  landed_cost_empty_shipment_eval link r nm pid

/-- C6 counterexample: for a single package whose dimensions are all zero,
the claim as stated predicts aggregate dimensions (0, 0, 0), but the code
substitutes the weight-based default triple (40, 30, 20) for total weight
0.5. -/
theorem C6_counterexample :
    calculate_consolidated_shipping [⟨0, 0, 1/2, 0, 0, 0, 0, 0, "", ""⟩] =
      ((1/2 : ℚ), (40 : ℚ), (30 : ℚ), (20 : ℚ)) ∧
    ((1/2 : ℚ), (40 : ℚ), (30 : ℚ), (20 : ℚ)) ≠ ((1/2 : ℚ), (0 : ℚ), (0 : ℚ), (0 : ℚ)) := by
  constructor
  · norm_num [calculate_consolidated_shipping, List.filter_cons, decide_eq_true_eq]
  · norm_num

/-- C6 amended: consolidation always returns the sum of the positive
weights as total weight; the maximum positive length, maximum positive
width and sum of positive heights are returned provided each of those
aggregates is nonzero (otherwise a weight-based default dimension triple
is substituted); the consolidation fee is 500 JPY times (package count
minus one) and depends only on the package count; and the three-package
instance with weights 0.4, 0.6, 0.3 gives aggregate weight exactly 13/10
with fee 1000. -/
theorem C6_consolidation (l : List PackageInfo) (h : l ≠ []) :
    (calculate_consolidated_shipping l).1 =
      ((l.filter (fun p => decide (0 < p.weight_kg))).map PackageInfo.weight_kg).sum ∧
    (((l.map PackageInfo.length_cm).filter (fun x => decide (0 < x))).foldl max 0 ≠ 0 →
     ((l.map PackageInfo.width_cm).filter (fun x => decide (0 < x))).foldl max 0 ≠ 0 →
     ((l.filter (fun p => decide (0 < p.height_cm))).map PackageInfo.height_cm).sum ≠ 0 →
     calculate_consolidated_shipping l =
       (((l.filter (fun p => decide (0 < p.weight_kg))).map PackageInfo.weight_kg).sum,
        ((l.map PackageInfo.length_cm).filter (fun x => decide (0 < x))).foldl max 0,
        ((l.map PackageInfo.width_cm).filter (fun x => decide (0 < x))).foldl max 0,
        ((l.filter (fun p => decide (0 < p.height_cm))).map PackageInfo.height_cm).sum)) ∧
    (∀ l2 : List PackageInfo, l.length = l2.length →
       consolidation_fee_jpy l = consolidation_fee_jpy l2) ∧
    calculate_consolidated_shipping
      [⟨0, 0, 4/10, 10, 10, 10, 0, 0, "", ""⟩, ⟨0, 0, 6/10, 20, 5, 10, 0, 0, "", ""⟩,
       ⟨0, 0, 3/10, 15, 15, 5, 0, 0, "", ""⟩] = (13/10, 20, 15, 25) ∧
    consolidation_fee_jpy
      [⟨0, 0, 4/10, 10, 10, 10, 0, 0, "", ""⟩, ⟨0, 0, 6/10, 20, 5, 10, 0, 0, "", ""⟩,
       ⟨0, 0, 3/10, 15, 15, 5, 0, 0, "", ""⟩] = 1000 := by
  have hne : l.isEmpty ≠ true := by
    simpa [List.isEmpty_iff] using h
  refine ⟨?_, ?_, ?_, ?_, ?_⟩
  · simp only [calculate_consolidated_shipping, if_neg hne]
    split_ifs <;> rfl
  · intro hL hW hH
    simp only [calculate_consolidated_shipping, if_neg hne]
    rw [if_neg]
    push_neg
    exact ⟨hL, hW, hH⟩
  · intro l2 h2
    simp only [consolidation_fee_jpy, h2]
  · norm_num [calculate_consolidated_shipping, List.filter_cons, decide_eq_true_eq,
      List.foldl_cons]
  · norm_num [consolidation_fee_jpy]

/-- C6 witness: the nonemptiness hypothesis discharged on a concrete
one-package list. -/
theorem C6_witness :
    ([(⟨0, 0, 4/10, 10, 10, 10, 0, 0, "", ""⟩ : PackageInfo)] ≠ []) ∧
    (calculate_consolidated_shipping [(⟨0, 0, 4/10, 10, 10, 10, 0, 0, "", ""⟩ : PackageInfo)]).1 =
      (([(⟨0, 0, 4/10, 10, 10, 10, 0, 0, "", ""⟩ : PackageInfo)].filter
          (fun p => decide (0 < p.weight_kg))).map PackageInfo.weight_kg).sum :=
  ⟨by simp, (C6_consolidation [⟨0, 0, 4/10, 10, 10, 10, 0, 0, "", ""⟩] (by simp)).1⟩

/-- C8 counterexample: a supplied manual price of 0 does not override the
extracted price (Python truthiness treats 0.0 like None), so the claim as
stated fails at manual price 0: the result keeps the extracted 5000. -/
theorem C8_counterexample :
    (calculate_landed_cost "x" ⟨5000, 5000, 1, 30, 20, 15, 0, 0, "", ""⟩ (67/10000)
        "EMS" none none none none (some 0)).item_price_jpy = 5000 ∧
    (5000 : ℚ) ≠ 0 := by
  constructor
  · simp [calculate_landed_cost, overrideQ]
  · norm_num

/-- C8 amended: manual overrides supplied with nonzero values short-circuit
the extracted values: the resulting item price and the customs base equal
the manual price, and the shipping quote and applied method are computed
from the manual weight and dimensions, independent of whatever was
extracted from the page (a supplied zero is ignored, per Python
truthiness). -/
theorem C8_manual_overrides (link : String) (p p2 : PackageInfo) (r : ℚ) (m : String)
    (v w lv wd hv : ℚ) (hv0 : v ≠ 0) (hw0 : w ≠ 0) (hl0 : lv ≠ 0) (hwd0 : wd ≠ 0)
    (hh0 : hv ≠ 0) :
    (calculate_landed_cost link p r m (some w) (some lv) (some wd) (some hv)
        (some v)).item_price_jpy = v ∧
    (calculate_landed_cost link p r m (some w) (some lv) (some wd) (some hv)
        (some v)).us_customs_duty_usd = v * r * (15/100) ∧
    (calculate_landed_cost link p r m (some w) (some lv) (some wd) (some hv)
        (some v)).international_shipping_jpy =
      (calculate_landed_cost link p2 r m (some w) (some lv) (some wd) (some hv)
        (some v)).international_shipping_jpy ∧
    (calculate_landed_cost link p r m (some w) (some lv) (some wd) (some hv)
        (some v)).shipping_method =
      (calculate_landed_cost link p2 r m (some w) (some lv) (some wd) (some hv)
        (some v)).shipping_method := by
  refine ⟨?_, ?_, ?_, ?_⟩
  · simp [calculate_landed_cost, overrideQ, hv0]
  · simp [calculate_landed_cost, overrideQ, calculate_us_customs, US_TARIFF_RATE_JAPAN, hv0]
  · simp only [calculate_landed_cost, overrideQ]
    simp only [if_neg hw0, if_neg hl0, if_neg hwd0, if_neg hh0, if_neg hv0]
  · simp only [calculate_landed_cost, overrideQ]
    simp only [if_neg hw0, if_neg hl0, if_neg hwd0, if_neg hh0, if_neg hv0]

/-- C8 witness: the nonzero-override hypotheses discharged at concrete
manual values. -/
theorem C8_witness :
    ((2 : ℚ) ≠ 0 ∧ (3 : ℚ) ≠ 0 ∧ (4 : ℚ) ≠ 0 ∧ (5 : ℚ) ≠ 0 ∧ (6 : ℚ) ≠ 0) ∧
    (calculate_landed_cost "x" ⟨5000, 5000, 1, 30, 20, 15, 0, 0, "", ""⟩ (67/10000)
        "EMS" (some 3) (some 4) (some 5) (some 6) (some 2)).item_price_jpy = 2 :=
  ⟨⟨by norm_num, by norm_num, by norm_num, by norm_num, by norm_num⟩,
   (C8_manual_overrides "x" ⟨5000, 5000, 1, 30, 20, 15, 0, 0, "", ""⟩
      ⟨0, 0, 0, 0, 0, 0, 0, 0, "", ""⟩ (67/10000) "EMS" 2 3 4 5 6
      (by norm_num) (by norm_num) (by norm_num) (by norm_num) (by norm_num)).1⟩

/-- A method name outside the five quoted carriers is not found in the
quote table. -/
lemma lookup_shipping_none (w l wd h : ℚ) (m : String)
    (hm : m ∉ ["FedEx Air", "EMS", "FedEx Economy", "DHL", "Buyee Air Delivery"]) :
    (estimate_international_shipping w l wd h).lookup m = none := by
  simp only [List.mem_cons, List.not_mem_nil, or_false, not_or] at hm
  obtain ⟨h1, h2, h3, h4, h5⟩ := hm
  have b1 : (m == "FedEx Air") = false := beq_eq_false_iff_ne.mpr h1
  have b2 : (m == "EMS") = false := beq_eq_false_iff_ne.mpr h2
  have b3 : (m == "FedEx Economy") = false := beq_eq_false_iff_ne.mpr h3
  have b4 : (m == "DHL") = false := beq_eq_false_iff_ne.mpr h4
  have b5 : (m == "Buyee Air Delivery") = false := beq_eq_false_iff_ne.mpr h5
  simp [estimate_international_shipping, List.lookup, b1, b2, b3, b4, b5]

/-- C9: a requested shipping method that is not among the five quoted
carriers is silently replaced by the EMS default — the computation still
succeeds and is identical to an explicit EMS request — and the
shipping_method field of the result always records the carrier actually
applied: EMS in the fallback case, the requested carrier when it is
quoted. -/
theorem C9_method_fallback (link : String) (p : PackageInfo) (r : ℚ)
    (mw ml mwd mh mp : Option ℚ) :
    (∀ m : String, m ∉ ["FedEx Air", "EMS", "FedEx Economy", "DHL", "Buyee Air Delivery"] →
       (calculate_landed_cost link p r m mw ml mwd mh mp).shipping_method = "EMS" ∧
       calculate_landed_cost link p r m mw ml mwd mh mp =
         calculate_landed_cost link p r "EMS" mw ml mwd mh mp) ∧
    (∀ m : String, m ∈ ["FedEx Air", "EMS", "FedEx Economy", "DHL", "Buyee Air Delivery"] →
       (calculate_landed_cost link p r m mw ml mwd mh mp).shipping_method = m) := by
  constructor
  · intro m hm
    have hnone := lookup_shipping_none (overrideQ mw p.weight_kg) (overrideQ ml p.length_cm)
      (overrideQ mwd p.width_cm) (overrideQ mh p.height_cm) m hm
    constructor
    · simp [calculate_landed_cost, hnone]
    · simp [calculate_landed_cost, hnone]
  · intro m hm
    simp only [List.mem_cons, List.mem_singleton] at hm
    rcases hm with rfl | rfl | rfl | rfl | rfl | hm
    · simp [calculate_landed_cost, List.lookup]
    · simp [calculate_landed_cost, List.lookup]
    · simp [calculate_landed_cost, List.lookup]
    · simp [calculate_landed_cost, List.lookup]
    · simp [calculate_landed_cost, List.lookup]
    · simp at hm

/-- C9 witness: the unknown-carrier hypothesis discharged at the concrete
method name "Surface Mail". -/
theorem C9_witness :
    ("Surface Mail" ∉ ["FedEx Air", "EMS", "FedEx Economy", "DHL", "Buyee Air Delivery"]) ∧
    (calculate_landed_cost "x" ⟨5000, 5000, 1, 30, 20, 15, 0, 0, "", ""⟩ (67/10000)
        "Surface Mail" none none none none none).shipping_method = "EMS" :=
  ⟨by decide,
   ((C9_method_fallback "x" ⟨5000, 5000, 1, 30, 20, 15, 0, 0, "", ""⟩ (67/10000)
      none none none none none).1 "Surface Mail" (by decide)).1⟩

/-- C10: when any dimension is zero or negative the volumetric weight
collapses to 0, so the chargeable weight is the (nonnegative) actual
weight alone and the FedEx Air quote is priced at it; the quote function
is total and always returns exactly the five fixed carriers. -/
theorem C10_zero_dims_safe :
    (∀ L W H : ℚ, (L ≤ 0 ∨ W ≤ 0 ∨ H ≤ 0) → calculate_volumetric_weight L W H = 0) ∧
    (∀ w L W H : ℚ, 0 ≤ w → (L ≤ 0 ∨ W ≤ 0 ∨ H ≤ 0) →
       (estimate_international_shipping w L W H).lookup "FedEx Air" =
         some ⟨"FedEx Air", fedex_air_cost w, 0, 3⟩) ∧
    (∀ w L W H : ℚ, (estimate_international_shipping w L W H).map Prod.fst =
       ["FedEx Air", "EMS", "FedEx Economy", "DHL", "Buyee Air Delivery"]) := by
  have hvol : ∀ L W H : ℚ, (L ≤ 0 ∨ W ≤ 0 ∨ H ≤ 0) → calculate_volumetric_weight L W H = 0 := by
    intro L W H h
    simp [calculate_volumetric_weight, h]
  refine ⟨hvol, ?_, ?_⟩
  · intro w L W H hw h
    simp [estimate_international_shipping, List.lookup, hvol L W H h, max_eq_left hw]
  · intro w L W H
    rfl

/-- C10 witness: the degenerate-dimension hypotheses discharged at
all-zero dimensions with actual weight 1. -/
theorem C10_witness :
    (0 : ℚ) ≤ 1 ∧ ((0 : ℚ) ≤ 0 ∨ (0 : ℚ) ≤ 0 ∨ (0 : ℚ) ≤ 0) ∧
    (estimate_international_shipping 1 0 0 0).lookup "FedEx Air" =
      some ⟨"FedEx Air", fedex_air_cost 1, 0, 3⟩ :=
  ⟨by norm_num, Or.inl le_rfl,
   C10_zero_dims_safe.2.1 1 0 0 0 (by norm_num) (Or.inl le_rfl)⟩
